import Mathlib

/-!
Shallow embedding of the rustis typed command/response mapping layer.

The embedding covers:
* `CommandArgs` with `arg`, `arg_ref`, `arg_if`, `write_arg` (src/resp/command_args.rs);
* the `ToArgs` capability and its instances for scalars and for the
  "single value or collection" parameter shape;
* `Command` and the free constructor `cmd`;
* the `Copy`, `Expire` and `Scan` command builders and the direct commands
  `del`, `unlink`, `dump` (src/commands/generic_commands.rs);
* `FlushingMode` with `flushdb` / `flushall` (src/commands/server_commands.rs);
* the reply value and the `dump` reply post-processing.

Stateful Rust methods taking `&mut self` become explicit state passing:
each method takes the receiver and returns the updated value.  Machine
integers that are only rendered as decimal text are modelled as `Nat`.
A builder's sender reference is dropped; an operation that hands a command
to `send_into` returns, in the embedding, the `Command` that is submitted.
-/

/-- A wire token: an arbitrary byte sequence, each byte a natural number.
Tokens are binary-safe; no UTF-8 assumption is made. -/
abbrev Tok := List Nat

/-- The byte sequence of a text token (its characters' code points). -/
def strTok (s : String) : Tok := s.data.map Char.toNat

/-- Numeric arguments render as decimal text. -/
def natTok (n : Nat) : Tok := strTok (toString n)

/-- Modelled from the spec: the binary-safe argument value of the resp module
(`BulkString`, not under src/): text or raw bytes (spec section 3, "binary string
(text or raw bytes)"). -/
inductive BulkString where
  | Str (s : String)
  | Binary (b : List Nat)
deriving DecidableEq

/-- The single wire token a `BulkString` contributes. -/
def BulkString.toTok : BulkString → Tok
  | .Str s => strTok s
  | .Binary b => b

/-- Collection of arguments of a `Command` (src/resp/command_args.rs).
The SmallVec of byte vectors is modelled as a list of tokens. -/
structure CommandArgs where
  args : List Tok
deriving DecidableEq

/-- Modelled from the spec: the `ToArgs` capability of the resp module (not under
src/) — "how does a native value append itself to an ArgumentBuffer". -/
class ToArgs (α : Type) where
  write_args : α → CommandArgs → CommandArgs

/-- `CommandArgs::write_arg`: push one token (src/resp/command_args.rs). -/
def CommandArgs.write_arg (self : CommandArgs) (buf : Tok) : CommandArgs :=
  ⟨self.args ++ [buf]⟩

/-- `CommandArgs::arg`: add an argument to an existing command collection
(src/resp/command_args.rs). -/
def CommandArgs.arg {α : Type} [ToArgs α] (self : CommandArgs) (a : α) : CommandArgs :=
  ToArgs.write_args a self

/-- `CommandArgs::arg_ref`: add an argument by ref (src/resp/command_args.rs). -/
def CommandArgs.arg_ref {α : Type} [ToArgs α] (self : CommandArgs) (a : α) : CommandArgs :=
  ToArgs.write_args a self

/-- `CommandArgs::arg_if`: add an argument only if a condition is true
(src/resp/command_args.rs). -/
def CommandArgs.arg_if {α : Type} [ToArgs α] (self : CommandArgs) (condition : Bool)
    (a : α) : CommandArgs :=
  if condition then self.arg a else self

/-- `CommandArgs::len` (src/resp/command_args.rs). -/
def CommandArgs.len (self : CommandArgs) : Nat := self.args.length

/-- Modelled from the spec: scalar text values append exactly one token
(spec section 4.1; the `ToArgs` impl for strings is not under src/). -/
instance instToArgsString : ToArgs String :=
  ⟨fun s buf => buf.write_arg (strTok s)⟩

/-- Modelled from the spec: numeric arguments render as decimal text, one token
(spec sections 4.1 and 6; the `ToArgs` impls for u64/usize are not under src/). -/
instance instToArgsNat : ToArgs Nat :=
  ⟨fun n buf => buf.write_arg (natTok n)⟩

/-- Modelled from the spec: a binary-safe value appends exactly one token
(spec section 4.1; the `ToArgs` impl for `BulkString` is not under src/). -/
instance instToArgsBulkString : ToArgs BulkString :=
  ⟨fun b buf => buf.write_arg b.toTok⟩

/-- Modelled from the spec: the "single value or collection" parameter shape
(`SingleArgOrCollection`, not under src/): "a small closed set of variants
{single T, ordered sequence of T}" (spec sections 4.1 and 9). -/
inductive SingleArgOrCollection (α : Type) where
  | single (v : α)
  | collection (vs : List α)
deriving DecidableEq

/-- Number of elements supplied through a single-or-many parameter. -/
def SingleArgOrCollection.size {α : Type} : SingleArgOrCollection α → Nat
  | .single _ => 1
  | .collection vs => vs.length

/-- Modelled from the spec: a single-or-many parameter "appends one token per
element in iteration order" (spec section 4.1; impls not under src/). -/
instance instToArgsSingleArgOrCollection {α : Type} [ToArgs α] :
    ToArgs (SingleArgOrCollection α) :=
  ⟨fun c buf =>
    match c with
    | .single v => ToArgs.write_args v buf
    | .collection vs => vs.foldl (fun b v => ToArgs.write_args v b) buf⟩

/-- Modelled from the spec: a `Command` is a command name (opaque token) plus its
ArgumentBuffer (spec section 3; the `Command` type is not under src/). -/
structure Command where
  name : String
  args : CommandArgs
deriving DecidableEq

/-- Modelled from the spec: the global free-function command constructor
`cmd("NAME")` (spec section 9; not under src/): pure, starts with no arguments. -/
def cmd (name : String) : Command := ⟨name, ⟨[]⟩⟩

/-- Modelled from the spec: a `Command` is "mutated by chained arg/arg_if calls"
(spec section 3); `arg` delegates to the buffer's `arg`. -/
def Command.arg {α : Type} [ToArgs α] (self : Command) (a : α) : Command :=
  { self with args := self.args.arg a }

/-- Modelled from the spec: conditional append on a `Command` (spec section 3);
delegates to the buffer's `arg_if`. -/
def Command.arg_if {α : Type} [ToArgs α] (self : Command) (condition : Bool)
    (a : α) : Command :=
  { self with args := self.args.arg_if condition a }

/-- Builder for the copy command (src/commands/generic_commands.rs).
The sender reference of the Rust struct is dropped in the embedding. -/
structure Copy where
  cmd : Command
deriving DecidableEq

/-- `GenericCommands::copy`: `cmd("COPY").arg(source).arg(destination)`
(src/commands/generic_commands.rs). -/
def GenericCommands.copy (source destination : BulkString) : Copy :=
  ⟨((cmd "COPY").arg source).arg destination⟩

/-- `Copy::db`: append `DB` and the destination database index
(src/commands/generic_commands.rs). -/
def Copy.db (self : Copy) (destination_db : Nat) : Copy :=
  ⟨(self.cmd.arg "DB").arg destination_db⟩

/-- `Copy::replace`: append `REPLACE` (src/commands/generic_commands.rs). -/
def Copy.replace (self : Copy) : Copy :=
  ⟨self.cmd.arg "REPLACE"⟩

/-- `Copy::execute`: submit the accumulated command; the embedding returns the
`Command` handed to `send_into` (src/commands/generic_commands.rs). -/
def Copy.execute (self : Copy) : Command := self.cmd

/-- Builder for the expire command (src/commands/generic_commands.rs).
The sender reference of the Rust struct is dropped in the embedding. -/
structure Expire where
  cmd : Command
deriving DecidableEq

/-- `GenericCommands::expire`: `cmd("EXPIRE").arg(key).arg(seconds)`
(src/commands/generic_commands.rs). -/
def GenericCommands.expire (key : BulkString) (seconds : Nat) : Expire :=
  ⟨((cmd "EXPIRE").arg key).arg seconds⟩

/-- `Expire::nx`: `send_into(self.cmd.arg("NX"))` — appends the flag and submits
in the same call; the embedding returns the submitted `Command`. -/
def Expire.nx (self : Expire) : Command := self.cmd.arg "NX"

/-- `Expire::xx`: `send_into(self.cmd.arg("XX"))`. -/
def Expire.xx (self : Expire) : Command := self.cmd.arg "XX"

/-- `Expire::gt`: `send_into(self.cmd.arg("GT"))`. -/
def Expire.gt (self : Expire) : Command := self.cmd.arg "GT"

/-- `Expire::lt`: `send_into(self.cmd.arg("LT"))`. -/
def Expire.lt (self : Expire) : Command := self.cmd.arg "LT"

/-- `Expire::execute`: execute with no option; submits the accumulated command
unchanged (src/commands/generic_commands.rs). -/
def Expire.execute (self : Expire) : Command := self.cmd

/-- Builder for the scan command (src/commands/generic_commands.rs).
The sender reference of the Rust struct is dropped in the embedding. -/
structure Scan where
  cmd : Command
deriving DecidableEq

/-- `GenericCommands::scan`: `cmd("SCAN").arg(cursor)`
(src/commands/generic_commands.rs). -/
def GenericCommands.scan (cursor : Nat) : Scan :=
  ⟨(cmd "SCAN").arg cursor⟩

/-- `Scan::match_`: append `MATCH` and the pattern
(src/commands/generic_commands.rs). -/
def Scan.match_ (self : Scan) (pattern : BulkString) : Scan :=
  ⟨(self.cmd.arg "MATCH").arg pattern⟩

/-- `Scan::count`: append `COUNT` and the hint
(src/commands/generic_commands.rs). -/
def Scan.count (self : Scan) (count : Nat) : Scan :=
  ⟨(self.cmd.arg "COUNT").arg count⟩

/-- `Scan::type_`: append `TYPE` and the type filter
(src/commands/generic_commands.rs). -/
def Scan.type_ (self : Scan) (type_ : BulkString) : Scan :=
  ⟨(self.cmd.arg "TYPE").arg type_⟩

/-- `Scan::execute`: submit the accumulated command
(src/commands/generic_commands.rs). -/
def Scan.execute (self : Scan) : Command := self.cmd

/-- `GenericCommands::del`: `cmd("DEL").arg(keys)` over a single-or-many keys
parameter (src/commands/generic_commands.rs). -/
def GenericCommands.del (keys : SingleArgOrCollection BulkString) : Command :=
  (cmd "DEL").arg keys

/-- `GenericCommands::unlink`: `cmd("UNLINK").arg(keys)` over a single-or-many
keys parameter (src/commands/generic_commands.rs). -/
def GenericCommands.unlink (keys : SingleArgOrCollection BulkString) : Command :=
  (cmd "UNLINK").arg keys

/-- `GenericCommands::exists`: `cmd("EXISTS").arg(keys)` over a single-or-many
keys parameter (src/commands/generic_commands.rs). -/
def GenericCommands.exists (keys : SingleArgOrCollection BulkString) : Command :=
  (cmd "EXISTS").arg keys

/-- Builder lifecycle state of spec section 4.3: a builder is `Building` while it
still wraps a pending command, and `Submitted` once a terminal call has handed
the wrapped `Command` to `send_into`. -/
inductive BuilderState where
  | Building (c : Command)
  | Submitted (c : Command)
deriving DecidableEq

/-- The public methods of the `Expire` builder. -/
inductive ExpireMethod where
  | nx
  | xx
  | gt
  | lt
  | execute
deriving DecidableEq

/-- Calling one `Expire` method, with its outcome classified as the builder
lifecycle state the call leaves behind.  Every method of the Rust impl calls
`send_into`, so every outcome is `Submitted` (src/commands/generic_commands.rs). -/
def Expire.call (m : ExpireMethod) (self : Expire) : BuilderState :=
  match m with
  | .nx => .Submitted self.nx
  | .xx => .Submitted self.xx
  | .gt => .Submitted self.gt
  | .lt => .Submitted self.lt
  | .execute => .Submitted self.execute

/-- The public methods of the `Copy` builder. -/
inductive CopyMethod where
  | db (n : Nat)
  | replace
  | execute
deriving DecidableEq

/-- Calling one `Copy` method, with its outcome classified as the builder
lifecycle state the call leaves behind.  `db` and `replace` return `Self`
(`Building`); only `execute` calls `send_into` (`Submitted`)
(src/commands/generic_commands.rs). -/
def Copy.call (m : CopyMethod) (self : Copy) : BuilderState :=
  match m with
  | .db n => .Building (self.db n).cmd
  | .replace => .Building self.replace.cmd
  | .execute => .Submitted self.execute

/-- The modifier (non-terminal) methods of the `Copy` builder. -/
inductive CopyModifier where
  | db (n : Nat)
  | replace
deriving DecidableEq

/-- Chaining a sequence of `Copy` modifier calls, leftmost call first. -/
def Copy.chain (self : Copy) : List CopyModifier → Copy
  | [] => self
  | CopyModifier.db n :: ms => (self.db n).chain ms
  | CopyModifier.replace :: ms => self.replace.chain ms

/-- Database flushing mode (src/commands/server_commands.rs). -/
inductive FlushingMode where
  | Default
  | Async
  | Sync
deriving DecidableEq

/-- `ServerCommands::flushdb` for `Database`: start from `cmd("FLUSHDB")` and
append `ASYNC` or `SYNC` according to the flushing mode; nothing for `Default`
(src/commands/server_commands.rs).  The embedding returns the `Command` handed
to `send`. -/
def ServerCommands.flushdb (flushing_mode : FlushingMode) : Command :=
  let command := cmd "FLUSHDB"
  match flushing_mode with
  | .Default => command
  | .Async => command.arg "ASYNC"
  | .Sync => command.arg "SYNC"

/-- `ServerCommands::flushall` for `Database`: same shape as `flushdb` over
`cmd("FLUSHALL")` (src/commands/server_commands.rs). -/
def ServerCommands.flushall (flushing_mode : FlushingMode) : Command :=
  let command := cmd "FLUSHALL"
  match flushing_mode with
  | .Default => command
  | .Async => command.arg "ASYNC"
  | .Sync => command.arg "SYNC"

/-- Modelled from the spec: the decoded wire reply (`Value` of the resp module,
not under src/): "absence/nil, integer, binary string (text or raw bytes),
ordered array of ReplyValue, or an error condition with a message" (spec
section 3). -/
inductive Value where
  | Nil
  | Integer (i : Int)
  | BulkString (b : BulkString)
  | Array (vs : List Value)
  | Error (msg : String)

/-- Modelled from the spec / src usage: the client error type (not under src/);
`Error::Internal` carries a message, as used by `dump`
(src/commands/generic_commands.rs). -/
inductive Error where
  | Internal (msg : String)
deriving DecidableEq

/-- `GenericCommands::dump`: the command sent is `cmd("DUMP").arg(key)`
(src/commands/generic_commands.rs). -/
def GenericCommands.dump (key : BulkString) : Command :=
  (cmd "DUMP").arg key

/-- The reply post-processing of `GenericCommands::dump`: a binary bulk-string
reply yields the raw payload, anything else yields
`Error::Internal("Unexpected dump format")` (src/commands/generic_commands.rs). -/
def dumpDecode (value : Value) : Except Error (List Nat) :=
  match value with
  | .BulkString (.Binary b) => .ok b
  | _ => .error (.Internal "Unexpected dump format")

/-! ### Helper lemmas -/

/-- Unfolding of the `BulkString` encoder: one token, the value's bytes. -/
theorem write_args_bulk (v : BulkString) (s : CommandArgs) :
    ToArgs.write_args v s = ⟨s.args ++ [v.toTok]⟩ := rfl

/-- Unfolding of the `Nat` encoder: one token, the decimal rendering. -/
theorem write_args_nat (n : Nat) (s : CommandArgs) :
    ToArgs.write_args n s = ⟨s.args ++ [natTok n]⟩ := rfl

/-- Unfolding of the `String` encoder: one token, the text's bytes. -/
theorem write_args_string (str : String) (s : CommandArgs) :
    ToArgs.write_args str s = ⟨s.args ++ [strTok str]⟩ := rfl

/-- Folding the `BulkString` encoder over a list appends one token per element
in iteration order. -/
theorem foldl_write_args_bulk (vs : List BulkString) (s : CommandArgs) :
    vs.foldl (fun b v => ToArgs.write_args v b) s =
      ⟨s.args ++ vs.map BulkString.toTok⟩ := by
  induction vs generalizing s with
  | nil => simp
  | cons v vs ih =>
    rw [List.foldl_cons, write_args_bulk, ih]
    simp

/-! ### Claim theorems -/

/-- Claim C1: for every boolean condition c and every encodable value v,
`arg_if(c, v)` on an argument buffer yields, when c is false, a buffer
byte-identical to one on which the call was omitted entirely, and, when c is
true, the same buffer as an unconditional `arg(v)` call; the same holds for the
conditional append on a `Command`. -/
theorem arg_if_false_noop_true_arg :
    (∀ (α : Type) [ToArgs α] (s : CommandArgs) (v : α),
       s.arg_if false v = s ∧ s.arg_if true v = s.arg v) ∧
    (∀ (α : Type) [ToArgs α] (c : Command) (v : α),
       c.arg_if false v = c ∧ c.arg_if true v = c.arg v) :=
  ⟨fun _ _ _ _ => ⟨rfl, rfl⟩, fun _ _ _ _ => ⟨rfl, rfl⟩⟩

/-- Claim C3: building the conditional-expiry command for a key and an amount
and applying only the greater-than flag submits a Command named EXPIRE whose
argument token sequence is exactly [key, amount, "GT"], in that order. -/
theorem expire_gt_token_sequence (key : BulkString) (seconds : Nat) :
    (GenericCommands.expire key seconds).gt.name = "EXPIRE" ∧
    (GenericCommands.expire key seconds).gt.args.args =
      [key.toTok, natTok seconds, strTok "GT"] :=
  ⟨rfl, rfl⟩

/-- Claim C5: passing a single value v and passing the length-1 collection
containing only v produce identical argument token sequences — generically on
the buffer for any encodable element type, and for the del / unlink / exists
commands in particular. -/
theorem single_vs_singleton_collection :
    (∀ (α : Type) [ToArgs α] (s : CommandArgs) (v : α),
       s.arg (SingleArgOrCollection.single v) =
         s.arg (SingleArgOrCollection.collection [v])) ∧
    (∀ v : BulkString,
       GenericCommands.del (SingleArgOrCollection.single v) =
         GenericCommands.del (SingleArgOrCollection.collection [v])) ∧
    (∀ v : BulkString,
       GenericCommands.unlink (SingleArgOrCollection.single v) =
         GenericCommands.unlink (SingleArgOrCollection.collection [v])) ∧
    (∀ v : BulkString,
       GenericCommands.exists (SingleArgOrCollection.single v) =
         GenericCommands.exists (SingleArgOrCollection.collection [v])) :=
  ⟨fun _ _ _ _ => rfl, fun _ => rfl, fun _ => rfl, fun _ => rfl⟩

/-- Claim C9: flushdb and flushall send a command with zero arguments in the
Default flushing mode, exactly the single token ASYNC in the Async mode, and
exactly the single token SYNC in the Sync mode. -/
theorem flushdb_flushall_mode_tokens :
    (ServerCommands.flushdb FlushingMode.Default).name = "FLUSHDB" ∧
    (ServerCommands.flushdb FlushingMode.Default).args.args = [] ∧
    (ServerCommands.flushdb FlushingMode.Async).args.args = [strTok "ASYNC"] ∧
    (ServerCommands.flushdb FlushingMode.Sync).args.args = [strTok "SYNC"] ∧
    (ServerCommands.flushall FlushingMode.Default).name = "FLUSHALL" ∧
    (ServerCommands.flushall FlushingMode.Default).args.args = [] ∧
    (ServerCommands.flushall FlushingMode.Async).args.args = [strTok "ASYNC"] ∧
    (ServerCommands.flushall FlushingMode.Sync).args.args = [strTok "SYNC"] :=
  ⟨rfl, rfl, rfl, rfl, rfl, rfl, rfl, rfl⟩

/-- Claim C10: the dump reply post-processing resolves to the raw byte payload
exactly when the reply is a binary bulk string; every other reply shape —
including a nil reply for a missing key — fails with the Internal error
"Unexpected dump format" instead of yielding an absent or empty value. -/
theorem dump_binary_payload_or_internal_error :
    (∀ b : List Nat,
       dumpDecode (Value.BulkString (BulkString.Binary b)) = Except.ok b) ∧
    (∀ v : Value,
       (∃ b, v = Value.BulkString (BulkString.Binary b)) ∨
         dumpDecode v = Except.error (Error.Internal "Unexpected dump format")) ∧
    dumpDecode Value.Nil = Except.error (Error.Internal "Unexpected dump format") := by
  refine ⟨fun b => rfl, ?_, rfl⟩
  intro v
  match v with
  | .BulkString (.Binary b) => exact Or.inl ⟨b, rfl⟩
  | .BulkString (.Str s) => exact Or.inr rfl
  | .Nil => exact Or.inr rfl
  | .Integer i => exact Or.inr rfl
  | .Array vs => exact Or.inr rfl
  | .Error m => exact Or.inr rfl

/-- Claim C6: the scan builder places the caller-supplied cursor as the first
argument after the command name, rendered as its decimal token and otherwise
unchanged; match_, count and type_ each append the literal uppercase token
MATCH / COUNT / TYPE immediately followed by its value token, in the order of
the chained calls. -/
theorem scan_cursor_and_modifier_tokens :
    (∀ cursor : Nat,
       (GenericCommands.scan cursor).cmd.name = "SCAN" ∧
       (GenericCommands.scan cursor).cmd.args.args = [natTok cursor]) ∧
    (∀ (sc : Scan) (pattern : BulkString),
       (sc.match_ pattern).cmd.args.args =
         sc.cmd.args.args ++ [strTok "MATCH", pattern.toTok]) ∧
    (∀ (sc : Scan) (n : Nat),
       (sc.count n).cmd.args.args =
         sc.cmd.args.args ++ [strTok "COUNT", natTok n]) ∧
    (∀ (sc : Scan) (t : BulkString),
       (sc.type_ t).cmd.args.args =
         sc.cmd.args.args ++ [strTok "TYPE", t.toTok]) ∧
    (∀ (cursor n : Nat) (pattern : BulkString),
       (((GenericCommands.scan cursor).match_ pattern).count n).cmd.args.args =
         [natTok cursor, strTok "MATCH", pattern.toTok, strTok "COUNT", natTok n]) := by
  refine ⟨fun cursor => ⟨rfl, rfl⟩, ?_, ?_, ?_, fun cursor n pattern => rfl⟩
  · intro sc pattern
    simp [Scan.match_, Command.arg, CommandArgs.arg, write_args_string, write_args_bulk]
  · intro sc n
    simp [Scan.count, Command.arg, CommandArgs.arg, write_args_string, write_args_nat]
  · intro sc t
    simp [Scan.type_, Command.arg, CommandArgs.arg, write_args_string, write_args_bulk]

/-- An operation on the argument buffer is append-only when the token sequence
held before the call is an unchanged prefix of the sequence after the call. -/
def AppendOnly (f : CommandArgs → CommandArgs) : Prop :=
  ∀ s : CommandArgs, ∃ ts : List Tok, (f s).args = s.args ++ ts

/-- Claim C8: every in-construction operation on the argument buffer — arg,
arg_ref and arg_if, over each encodable shape of the embedding, as well as the
underlying write_arg — is append-only: the previous token sequence remains an
unchanged prefix of the new one, so no existing token is removed, reordered or
altered. -/
theorem commandargs_append_only :
    (∀ t : Tok, AppendOnly (fun s => s.write_arg t)) ∧
    (∀ b : BulkString, AppendOnly (fun s => s.arg b)) ∧
    (∀ b : BulkString, AppendOnly (fun s => s.arg_ref b)) ∧
    (∀ n : Nat, AppendOnly (fun s => s.arg n)) ∧
    (∀ str : String, AppendOnly (fun s => s.arg str)) ∧
    (∀ ks : SingleArgOrCollection BulkString, AppendOnly (fun s => s.arg ks)) ∧
    (∀ (c : Bool) (b : BulkString), AppendOnly (fun s => s.arg_if c b)) ∧
    (∀ (c : Bool) (ks : SingleArgOrCollection BulkString),
       AppendOnly (fun s => s.arg_if c ks)) := by
  have harg : ∀ (ks : SingleArgOrCollection BulkString) (s : CommandArgs),
      ∃ ts : List Tok, (s.arg ks).args = s.args ++ ts := by
    intro ks s
    match ks with
    | .single v => exact ⟨[v.toTok], rfl⟩
    | .collection vs =>
      refine ⟨vs.map BulkString.toTok, ?_⟩
      show (vs.foldl (fun b v => ToArgs.write_args v b) s).args = _
      rw [foldl_write_args_bulk]
  refine ⟨fun t s => ⟨[t], rfl⟩,
          fun b s => ⟨[b.toTok], rfl⟩,
          fun b s => ⟨[b.toTok], rfl⟩,
          fun n s => ⟨[natTok n], rfl⟩,
          fun str s => ⟨[strTok str], rfl⟩,
          harg, ?_, ?_⟩
  · intro c b s
    cases c with
    | false => exact ⟨[], by simp [CommandArgs.arg_if]⟩
    | true => exact ⟨[b.toTok], rfl⟩
  · intro c ks s
    cases c with
    | false => exact ⟨[], by simp [CommandArgs.arg_if]⟩
    | true => exact harg ks s

/-- Claim C7, as stated, is false: the claim says every encodable value pushes
one or more tokens, but encoding the empty collection through the
single-or-many parameter shape appends no token at all — the concrete buffer
⟨[]⟩ is left byte-identical, so its length does not grow. -/
theorem empty_collection_appends_no_token :
    ¬ (∀ (s : CommandArgs) (ks : SingleArgOrCollection BulkString),
        s.len + 1 ≤ (s.arg ks).len) := by
  intro h
  have h2 := h ⟨[]⟩ (SingleArgOrCollection.collection [])
  exact absurd h2 (by decide)

/-- Claim C7 (amended): encoding never fails — it is a total function of the
buffer with no effect other than appending tokens: scalar values (binary-safe
values, integers, text) append exactly one token, and a single-or-many
parameter appends exactly one token per supplied element, which is zero tokens
for an empty collection. -/
theorem encoding_total_and_token_counts :
    (∀ (s : CommandArgs) (b : BulkString), (s.arg b).args = s.args ++ [b.toTok]) ∧
    (∀ (s : CommandArgs) (n : Nat), (s.arg n).args = s.args ++ [natTok n]) ∧
    (∀ (s : CommandArgs) (str : String), (s.arg str).args = s.args ++ [strTok str]) ∧
    (∀ (s : CommandArgs) (ks : SingleArgOrCollection BulkString),
       ∃ ts : List Tok, (s.arg ks).args = s.args ++ ts ∧ ts.length = ks.size) := by
  refine ⟨fun s b => rfl, fun s n => rfl, fun s str => rfl, ?_⟩
  intro s ks
  match ks with
  | .single v => exact ⟨[v.toTok], rfl, rfl⟩
  | .collection vs =>
    refine ⟨vs.map BulkString.toTok, ?_, by simp [SingleArgOrCollection.size]⟩
    show (vs.foldl (fun b v => ToArgs.write_args v b) s).args = _
    rw [foldl_write_args_bulk]

/-- Claim C2, as stated, is false at the Expire builder cited by the claim: its
non-execute methods do not produce a new builder in the Building state with a
longer argument list.  Concretely, gt — a chained modifier call, since it
appends the GT flag — called on the builder for expire("key", 10) yields a
Submitted state, never a Building one: the method hands the command to
send_into itself. -/
theorem expire_modifier_call_submits :
    ¬ (∀ (m : ExpireMethod), m ≠ ExpireMethod.execute →
        ∀ e : Expire, ∃ c : Command,
          Expire.call m e = BuilderState.Building c ∧
          e.cmd.args.len < c.args.len) := by
  intro h
  obtain ⟨c, hc, _⟩ :=
    h ExpireMethod.gt (by decide) (GenericCommands.expire (BulkString.Str "key") 10)
  exact BuilderState.noConfusion hc

/-- Claim C2 (amended): for the Copy builder, each chained modifier call (db,
replace) produces a new builder in the Building state with a strictly longer
argument list, and submission happens only at execute, which submits the
accumulated command unchanged.  For the Expire builder, execute submits the
accumulated command unchanged, but the flag methods nx, xx, gt, lt are
themselves terminal: each appends its single flag token and submits the command
in the same call, so every Expire method yields the Submitted state. -/
theorem copy_expire_builder_lifecycle :
    (∀ (cp : Copy) (n : Nat),
       Copy.call (CopyMethod.db n) cp = BuilderState.Building (cp.db n).cmd ∧
       (cp.db n).cmd.args.len = cp.cmd.args.len + 2) ∧
    (∀ cp : Copy,
       Copy.call CopyMethod.replace cp = BuilderState.Building cp.replace.cmd ∧
       cp.replace.cmd.args.len = cp.cmd.args.len + 1) ∧
    (∀ cp : Copy, Copy.call CopyMethod.execute cp = BuilderState.Submitted cp.cmd) ∧
    (∀ (e : Expire) (m : ExpireMethod), ∃ c : Command,
       Expire.call m e = BuilderState.Submitted c) ∧
    (∀ e : Expire,
       Expire.call ExpireMethod.nx e = BuilderState.Submitted (e.cmd.arg "NX") ∧
       Expire.call ExpireMethod.xx e = BuilderState.Submitted (e.cmd.arg "XX") ∧
       Expire.call ExpireMethod.gt e = BuilderState.Submitted (e.cmd.arg "GT") ∧
       Expire.call ExpireMethod.lt e = BuilderState.Submitted (e.cmd.arg "LT") ∧
       Expire.call ExpireMethod.execute e = BuilderState.Submitted e.cmd ∧
       (e.cmd.arg "GT").args.len = e.cmd.args.len + 1) := by
  refine ⟨?_, ?_, fun cp => rfl, ?_, ?_⟩
  · intro cp n
    refine ⟨rfl, ?_⟩
    simp [Copy.db, Command.arg, CommandArgs.arg, write_args_string, write_args_nat,
      CommandArgs.len]
  · intro cp
    refine ⟨rfl, ?_⟩
    simp [Copy.replace, Command.arg, CommandArgs.arg, write_args_string, CommandArgs.len]
  · intro e m
    cases m with
    | nx => exact ⟨e.nx, rfl⟩
    | xx => exact ⟨e.xx, rfl⟩
    | gt => exact ⟨e.gt, rfl⟩
    | lt => exact ⟨e.lt, rfl⟩
    | execute => exact ⟨e.cmd, rfl⟩
  · intro e
    refine ⟨rfl, rfl, rfl, rfl, rfl, ?_⟩
    simp [Command.arg, CommandArgs.arg, write_args_string, CommandArgs.len]

/-- Claim C4, as stated, is false: reaching the "destination database 3 and
replace enabled" configuration by chaining replace() before db(3) yields the
tokens in a different order, [source, destination, "REPLACE", "DB", "3"], so
the claimed sequence does not hold regardless of how the configuration is
reached.  Concretely refuted at source "src", destination "dst" and the chain
[replace, db 3], a permutation of [db 3, replace]. -/
theorem copy_token_order_depends_on_chain_order :
    ¬ (∀ (source destination : BulkString) (ms : List CopyModifier),
        List.Perm ms [CopyModifier.db 3, CopyModifier.replace] →
        (((GenericCommands.copy source destination).chain ms).execute).args.args =
          [source.toTok, destination.toTok, strTok "DB", natTok 3, strTok "REPLACE"]) := by
  intro h
  have h2 := h (BulkString.Str "src") (BulkString.Str "dst")
      [CopyModifier.replace, CopyModifier.db 3]
      (List.Perm.swap (CopyModifier.db 3) CopyModifier.replace [])
  exact absurd h2 (by decide)

/-- Claim C4 (amended): building a copy command for a source and a destination
and chaining db(3) then replace() — in that order, whether written as the
direct method chain or as the corresponding modifier-call list — yields a
Command named COPY with the argument token sequence
[source, destination, "DB", "3", "REPLACE"] in exactly that order; the wire
order follows the order of the chained calls. -/
theorem copy_db_replace_token_sequence (source destination : BulkString) :
    ((((GenericCommands.copy source destination).db 3).replace).execute).name = "COPY" ∧
    ((((GenericCommands.copy source destination).db 3).replace).execute).args.args =
      [source.toTok, destination.toTok, strTok "DB", natTok 3, strTok "REPLACE"] ∧
    (((GenericCommands.copy source destination).chain
        [CopyModifier.db 3, CopyModifier.replace]).execute).args.args =
      [source.toTok, destination.toTok, strTok "DB", natTok 3, strTok "REPLACE"] :=
  ⟨rfl, rfl, rfl⟩
